import Mathlib

/-!
Shallow embedding of the gomidi track-event codec.

Byte buffers are `List Nat` (each element a byte value `< 256`, as Go's
`[]byte` guarantees by type); machine integers are `Nat` with explicit
`% 2 ^ w` at the places where a Go conversion or shift can overflow.
Fallible Go functions (returning `err`) become `Except Err`.

The definitions mirror the final draft of the source: `readVariableLengthInteger`
and `Chunk.Events` from midi.go (second version), the parse functions from
channel.go / common.go / exclusive.go / realtime.go and `parseMeta` from the
unnamed meta file, the serializers (`WriteTo` methods) from the same files, and
`writeVariableLengthValue` plus `Track.Chunk` from write.go.  The draft
`ParseChannelEvent` from midi.go (first version) is embedded separately.
-/

namespace Gomidi

/-- Error taxonomy: one constructor per distinct error produced by the decoder
(the Go code uses distinct error strings at these spots). -/
inductive Err
  | malformedVLQ
  | expectedEventAfterDelta
  | dataByteWithoutRunningStatus
  | unknownStatusByte (b : Nat)
  | truncatedChannelEvent
  | truncatedSystemCommon
  | truncatedSysex
  | truncatedMeta
  | metaNoTypeByte
  deriving DecidableEq, Repr

/-- EventType enumeration from midi.go. -/
inductive EventType
  | NoteOff
  | NoteOn
  | PolyphonicKeyPressure
  | ControlChange
  | ProgramChange
  | ChannelPressure
  | PitchWheelChange
  | SystemExclusive
  | SongPositionPointer
  | SongSelect
  | TuneRequest
  | TimingClock
  | Start
  | Continue
  | Stop
  | ActiveSensing
  | Meta
  deriving DecidableEq, Repr

/-- Event sum type: one constructor per Go event struct (ChannelEvent,
SystemCommonEvent, SystemRealTimeEvent, SystemExclusiveEvent, MetaEvent).
The `eventType` field of the sysex / meta structs is omitted because the
code always stores the constant `SystemExclusive` / `Meta` there. -/
inductive Event
  | ChannelEvent (deltaTime : Nat) (eventType : EventType) (Channel Value1 Value2 : Nat)
  | SystemCommonEvent (deltaTime : Nat) (eventType : EventType) (Value1 Value2 : Nat)
  | SystemRealTimeEvent (deltaTime : Nat) (eventType : EventType)
  | SystemExclusiveEvent (deltaTime : Nat) (Data : List Nat)
  | MetaEvent (deltaTime : Nat) (MetaType : Nat) (Data : List Nat)
  deriving DecidableEq, Repr

/-- Loop body of `readVariableLengthInteger` (midi.go): accumulate
`result = (result << 7) ^ (b & 0x7F)` in uint32 arithmetic, stop at the first
byte whose high bit is clear, fail when the buffer is exhausted first. -/
def readVLQGo : List Nat → Nat → Nat → Except Err (Nat × Nat)
  | [], _, _ => .error .malformedVLQ
  | b :: rest, result, bytesRead =>
    let result := ((result <<< 7) % 4294967296) ^^^ (b &&& 0x7F)
    let bytesRead := bytesRead + 1
    if b >>> 7 = 0 then .ok (result, bytesRead)
    else readVLQGo rest result bytesRead

/-- readVariableLengthInteger from midi.go: reads a variable length integer
from a slice of bytes, returning the value and the number of bytes read. -/
def readVariableLengthInteger (bs : List Nat) : Except Err (Nat × Nat) :=
  readVLQGo bs 0 0

/-- Loop of `writeVariableLengthValue` (write.go): prepend 7-bit groups,
xoring every byte but the first-emitted (least significant) one with 0x80.
The Go loop runs on a `uint32`, so at most five iterations ever happen; the
`fuel` argument (always called with 5) makes that explicit. -/
def writeVLQGo : Nat → Nat → List Nat → List Nat
  | 0, _, acc => acc
  | fuel + 1, value, acc =>
    if value = 0 then acc
    else writeVLQGo fuel (value >>> 7) (((value &&& 0x7F) ^^^ 0x80) :: acc)

/-- writeVariableLengthValue from write.go: the VLQ encoder (do-while loop,
first-emitted byte keeps its high bit clear, later bytes get 0x80). -/
def writeVariableLengthValue (value : Nat) : List Nat :=
  writeVLQGo 5 (value >>> 7) [value &&& 0x7F]

/-- Modelled from the spec: `writeVariableLengthInteger`, the VLQ encoder that
the event `WriteTo` serializers in channel.go, common.go, exclusive.go and the
meta file call, is not under src/ (only its callers are).  Per spec section 4.1,
`encodeVLQ` emits the minimal big-endian 7-bit-group sequence with continuation
bits — exactly what `writeVariableLengthValue` in write.go computes — so it is
modelled as that function. -/
def writeVariableLengthInteger (value : Nat) : List Nat :=
  writeVariableLengthValue value

/-- parseChannelEvent from channel.go (final draft): for two-value kinds the
first data byte feeds Value1 and the second feeds Value2; Go zero-initializes
the struct so unassigned values are 0. -/
def parseChannelEvent (statusByte deltaTime : Nat) (eventType : EventType)
    (numValues : Nat) (data : List Nat) : Except Err (Event × Nat) :=
  if data.length < numValues then .error .truncatedChannelEvent
  else if numValues = 1 then
    .ok (.ChannelEvent deltaTime eventType (statusByte &&& 0xF) (data.getD 0 0) 0, numValues)
  else if numValues = 2 then
    .ok (.ChannelEvent deltaTime eventType (statusByte &&& 0xF)
          (data.getD 0 0) (data.getD 1 0), numValues)
  else
    .ok (.ChannelEvent deltaTime eventType (statusByte &&& 0xF) 0 0, numValues)

/-- ParseChannelEvent from midi.go (draft version): identical to
`parseChannelEvent` except that when `numValues = 2` only `Value2 = data[1]`
is assigned, leaving `Value1` at its zero value. -/
def ParseChannelEvent (statusByte deltaTime : Nat) (eventType : EventType)
    (numValues : Nat) (data : List Nat) : Except Err (Event × Nat) :=
  if data.length < numValues then .error .truncatedChannelEvent
  else if numValues = 1 then
    .ok (.ChannelEvent deltaTime eventType (statusByte &&& 0xF) (data.getD 0 0) 0, numValues)
  else if numValues = 2 then
    .ok (.ChannelEvent deltaTime eventType (statusByte &&& 0xF) 0 (data.getD 1 0), numValues)
  else
    .ok (.ChannelEvent deltaTime eventType (statusByte &&& 0xF) 0 0, numValues)

/-- parseNoteOff from channel.go. -/
def parseNoteOff (statusByte deltaTime : Nat) (data : List Nat) : Except Err (Event × Nat) :=
  parseChannelEvent statusByte deltaTime .NoteOff 2 data

/-- parseNoteOn from channel.go. -/
def parseNoteOn (statusByte deltaTime : Nat) (data : List Nat) : Except Err (Event × Nat) :=
  parseChannelEvent statusByte deltaTime .NoteOn 2 data

/-- parsePolyphonicKeyPressure from channel.go. -/
def parsePolyphonicKeyPressure (statusByte deltaTime : Nat) (data : List Nat) :
    Except Err (Event × Nat) :=
  parseChannelEvent statusByte deltaTime .PolyphonicKeyPressure 2 data

/-- parseControlChange from channel.go. -/
def parseControlChange (statusByte deltaTime : Nat) (data : List Nat) :
    Except Err (Event × Nat) :=
  parseChannelEvent statusByte deltaTime .ControlChange 2 data

/-- parseProgramChange from channel.go. -/
def parseProgramChange (statusByte deltaTime : Nat) (data : List Nat) :
    Except Err (Event × Nat) :=
  parseChannelEvent statusByte deltaTime .ProgramChange 1 data

/-- parseChannelPressure from channel.go. -/
def parseChannelPressure (statusByte deltaTime : Nat) (data : List Nat) :
    Except Err (Event × Nat) :=
  parseChannelEvent statusByte deltaTime .ChannelPressure 1 data

/-- parsePitchWheelChange from channel.go: parses two data bytes and then
combines them into the single 14-bit value `(Value2 << 7) ^ Value1`
(uint16 arithmetic; both operands come from bytes so no wrap occurs). -/
def parsePitchWheelChange (statusByte deltaTime : Nat) (data : List Nat) :
    Except Err (Event × Nat) :=
  match parseChannelEvent statusByte deltaTime .PitchWheelChange 2 data with
  | .error e => .error e
  | .ok (.ChannelEvent dt et ch v1 v2, n) =>
    .ok (.ChannelEvent dt et ch ((((v2 <<< 7) % 65536) ^^^ v1) % 65536) v2, n)
  | .ok (ev, n) => .ok (ev, n)

/-- parseSystemCommonEvent from common.go. -/
def parseSystemCommonEvent (deltaTime : Nat) (eventType : EventType)
    (numValues : Nat) (data : List Nat) : Except Err (Event × Nat) :=
  if data.length < numValues then .error .truncatedSystemCommon
  else if numValues = 1 then
    .ok (.SystemCommonEvent deltaTime eventType (data.getD 0 0) 0, numValues)
  else if numValues = 2 then
    .ok (.SystemCommonEvent deltaTime eventType (data.getD 0 0) (data.getD 1 0), numValues)
  else
    .ok (.SystemCommonEvent deltaTime eventType 0 0, numValues)

/-- parseSongPositionPointer from common.go: two data bytes combined into a
14-bit value exactly like the pitch wheel. -/
def parseSongPositionPointer (statusByte deltaTime : Nat) (data : List Nat) :
    Except Err (Event × Nat) :=
  match parseSystemCommonEvent deltaTime .SongPositionPointer 2 data with
  | .error e => .error e
  | .ok (.SystemCommonEvent dt et v1 v2, n) =>
    .ok (.SystemCommonEvent dt et ((((v2 <<< 7) % 65536) ^^^ v1) % 65536) v2, n)
  | .ok (ev, n) => .ok (ev, n)

/-- parseSongSelect from common.go. -/
def parseSongSelect (statusByte deltaTime : Nat) (data : List Nat) :
    Except Err (Event × Nat) :=
  parseSystemCommonEvent deltaTime .SongSelect 1 data

/-- parseTuneRequest from common.go. -/
def parseTuneRequest (statusByte deltaTime : Nat) (data : List Nat) :
    Except Err (Event × Nat) :=
  parseSystemCommonEvent deltaTime .TuneRequest 0 data

/-- parseSystemRealTimeEvent from realtime.go: always succeeds, consumes no
data bytes. -/
def parseSystemRealTimeEvent (deltaTime : Nat) (eventType : EventType) :
    Except Err (Event × Nat) :=
  .ok (.SystemRealTimeEvent deltaTime eventType, 0)

/-- parseSystemExclusive from exclusive.go: VLQ length prefix, then that many
payload bytes; fails when the declared length exceeds the remaining buffer. -/
def parseSystemExclusive (statusByte deltaTime : Nat) (data : List Nat) :
    Except Err (Event × Nat) :=
  match readVariableLengthInteger data with
  | .error e => .error e
  | .ok (numBytes, bytesRead) =>
    let rest := data.drop bytesRead
    if rest.length < numBytes then .error .truncatedSysex
    else .ok (.SystemExclusiveEvent deltaTime (rest.take numBytes), bytesRead + numBytes)

/-- parseMeta from the meta file: one meta-type byte, then a VLQ length, then
that many payload bytes; `bytesRead` is incremented by one at the end for the
meta-type byte. -/
def parseMeta (statusByte deltaTime : Nat) (data : List Nat) :
    Except Err (Event × Nat) :=
  match data with
  | [] => .error .metaNoTypeByte
  | metaType :: rest =>
    match readVariableLengthInteger rest with
    | .error e => .error e
    | .ok (numBytes, bytesRead) =>
      let rest := rest.drop bytesRead
      if rest.length < numBytes then .error .truncatedMeta
      else .ok (.MetaEvent deltaTime metaType (rest.take numBytes), bytesRead + numBytes + 1)

/-- Running-status bookkeeping paired with a parse result: the dispatcher's
switch assigns `runningStatusActive` / `runningStatusByte` alongside choosing
the parse function. -/
def setRS (r : Except Err (Event × Nat)) (active : Bool) (byte : Nat) :
    Except Err (Event × Nat × Bool × Nat) :=
  match r with
  | .error e => .error e
  | .ok (ev, n) => .ok (ev, n, active, byte)

/-- Switch statement of `Chunk.Events` (midi.go): classifies the status byte,
invokes the matching parse function and updates the running-status state.
Channel voice/mode bytes (high nibble 0x8 to 0xE) set the running status,
0xF0 / 0xF2 / 0xF3 / 0xF6 / 0xF7 clear the active flag (the stale byte is kept,
as in the Go code), 0xF8 / 0xFA / 0xFB / 0xFC / 0xFE / 0xFF leave both
variables untouched, and anything else is an unknown status byte. -/
def dispatch (statusByte deltaTime : Nat) (data : List Nat)
    (rsActive : Bool) (rsByte : Nat) : Except Err (Event × Nat × Bool × Nat) :=
  if statusByte >>> 4 = 0x8 then
    setRS (parseNoteOff statusByte deltaTime data) true statusByte
  else if statusByte >>> 4 = 0x9 then
    setRS (parseNoteOn statusByte deltaTime data) true statusByte
  else if statusByte >>> 4 = 0xA then
    setRS (parsePolyphonicKeyPressure statusByte deltaTime data) true statusByte
  else if statusByte >>> 4 = 0xB then
    setRS (parseControlChange statusByte deltaTime data) true statusByte
  else if statusByte >>> 4 = 0xC then
    setRS (parseProgramChange statusByte deltaTime data) true statusByte
  else if statusByte >>> 4 = 0xD then
    setRS (parseChannelPressure statusByte deltaTime data) true statusByte
  else if statusByte >>> 4 = 0xE then
    setRS (parsePitchWheelChange statusByte deltaTime data) true statusByte
  else if statusByte = 0xF0 then
    setRS (parseSystemExclusive statusByte deltaTime data) false rsByte
  else if statusByte = 0xF2 then
    setRS (parseSongPositionPointer statusByte deltaTime data) false rsByte
  else if statusByte = 0xF3 then
    setRS (parseSongSelect statusByte deltaTime data) false rsByte
  else if statusByte = 0xF6 then
    setRS (parseTuneRequest statusByte deltaTime data) false rsByte
  else if statusByte = 0xF7 then
    setRS (parseSystemExclusive statusByte deltaTime data) false rsByte
  else if statusByte = 0xF8 then
    setRS (parseSystemRealTimeEvent deltaTime .TimingClock) rsActive rsByte
  else if statusByte = 0xFA then
    setRS (parseSystemRealTimeEvent deltaTime .Start) rsActive rsByte
  else if statusByte = 0xFB then
    setRS (parseSystemRealTimeEvent deltaTime .Continue) rsActive rsByte
  else if statusByte = 0xFC then
    setRS (parseSystemRealTimeEvent deltaTime .Stop) rsActive rsByte
  else if statusByte = 0xFE then
    setRS (parseSystemRealTimeEvent deltaTime .ActiveSensing) rsActive rsByte
  else if statusByte = 0xFF then
    setRS (parseMeta statusByte deltaTime data) rsActive rsByte
  else
    .error (.unknownStatusByte statusByte)

/-- One iteration of the `Chunk.Events` loop: read the delta-time VLQ, look at
the next byte (fresh status byte if its high bit is set, otherwise a data byte
that requires an active running status), dispatch, and report the total number
of bytes this iteration consumed together with the new running-status state. -/
def parseOneEvent (data : List Nat) (rsActive : Bool) (rsByte : Nat) :
    Except Err (Event × Nat × Bool × Nat) :=
  match readVariableLengthInteger data with
  | .error e => .error e
  | .ok (deltaTime, n0) =>
    match data.drop n0 with
    | [] => .error .expectedEventAfterDelta
    | b :: rest =>
      if b >>> 7 = 1 then
        match dispatch b deltaTime rest rsActive rsByte with
        | .error e => .error e
        | .ok (ev, k, a, s) => .ok (ev, n0 + 1 + k, a, s)
      else if rsActive then
        match dispatch rsByte deltaTime (b :: rest) rsActive rsByte with
        | .error e => .error e
        | .ok (ev, k, a, s) => .ok (ev, n0 + k, a, s)
      else .error .dataByteWithoutRunningStatus

/-- The `for` loop of `Chunk.Events`: parse events until the buffer is empty.
Every iteration consumes at least the one delta-time byte, so the buffer length
bounds the number of iterations; `fuel` makes that bound explicit (the entry
point passes the buffer length, and the zero-fuel case is unreachable). -/
def eventsLoop : Nat → List Nat → Bool → Nat → Except Err (List Event)
  | 0, _, _, _ => .error .malformedVLQ
  | fuel + 1, data, rsActive, rsByte =>
    match parseOneEvent data rsActive rsByte with
    | .error e => .error e
    | .ok (ev, n, a, s) =>
      let rest := data.drop n
      if rest = [] then .ok [ev]
      else
        match eventsLoop fuel rest a s with
        | .error e => .error e
        | .ok evs => .ok (ev :: evs)

/-- Chunk.Events from midi.go: decode a whole track-chunk payload buffer into
the ordered event sequence, starting with no running status active (and the
running-status byte zero-initialized).  `data.length + 1` fuel is enough for
the loop to run to completion because every iteration consumes at least one
byte; the zero-fuel arm of `eventsLoop` is never reached. -/
def Events (data : List Nat) : Except Err (List Event) :=
  eventsLoop (data.length + 1) data false 0

/-- List of meta types the `MetaEvent.WriteTo` switch recognizes; any other
value falls through the switch and is written as 0x00. -/
def knownMeta (mt : Nat) : Bool :=
  [0x0, 0x1, 0x2, 0x3, 0x4, 0x5, 0x6, 0x7,
   0x20, 0x2F, 0x51, 0x54, 0x58, 0x59, 0x7F].contains mt

/-- First switch of `ChannelEvent.WriteTo` (channel.go): the status nibble
written into `data[0]` (Go leaves it 0 for kinds outside the switch). -/
def channelStatusNibble : EventType → Nat
  | .NoteOff => 0x8
  | .NoteOn => 0x9
  | .PolyphonicKeyPressure => 0xA
  | .ControlChange => 0xB
  | .ProgramChange => 0xC
  | .ChannelPressure => 0xD
  | .PitchWheelChange => 0xE
  | _ => 0

/-- `data[1]` of `ChannelEvent.WriteTo`: `byte(Value1)` in general, overridden
to `byte(Value1 & 0x7F)` for the pitch wheel. -/
def channelD1 (et : EventType) (v1 : Nat) : Nat :=
  match et with
  | .PitchWheelChange => v1 &&& 0x7F
  | _ => v1 % 256

/-- `data[2]` of `ChannelEvent.WriteTo`: `byte(Value2)` in general, overridden
to `byte(Value1 >> 7)` for the pitch wheel. -/
def channelD2 (et : EventType) (v1 v2 : Nat) : Nat :=
  match et with
  | .PitchWheelChange => (v1 >>> 7) % 256
  | _ => v2 % 256

/-- `numBytes` of `ChannelEvent.WriteTo`: 2 for the one-data-byte kinds,
otherwise 3. -/
def channelNumBytes : EventType → Nat
  | .ProgramChange => 2
  | .ChannelPressure => 2
  | _ => 3

/-- Switch of `SystemCommonEvent.WriteTo` (common.go): status byte plus data
bytes truncated to the kind's byte count (the Go default emits the single
zero-initialized `data[0]` byte). -/
def systemCommonBytes (et : EventType) (v1 v2 : Nat) : List Nat :=
  match et with
  | .SongPositionPointer => [0xF2, v1 &&& 0x7F, (v1 >>> 7) % 256]
  | .SongSelect => [0xF3, v1 % 256]
  | .TuneRequest => [0xF6]
  | _ => [0]

/-- Switch of `SystemRealTimeEvent.WriteTo` (realtime.go): the status byte
(zero when the event type is not a real-time kind). -/
def realTimeStatusByte : EventType → Nat
  | .TimingClock => 0xF8
  | .Start => 0xFA
  | .Continue => 0xFB
  | .Stop => 0xFC
  | .ActiveSensing => 0xFE
  | _ => 0

/-- Switch of `MetaEvent.WriteTo` (meta file): recognized meta types map to
their own byte, anything else falls through the switch and is written as 0. -/
def metaTypeByte (mt : Nat) : Nat :=
  if knownMeta mt then mt else 0

/-- Serializers: the `WriteTo` methods of ChannelEvent (channel.go),
SystemCommonEvent (common.go), SystemRealTimeEvent (realtime.go),
SystemExclusiveEvent (exclusive.go) and MetaEvent (meta file).  Each emits its
delta-time VLQ followed by the variant's wire bytes; `byte(...)` conversions
of uint16 fields become `% 256`. -/
def Event.writeTo : Event → List Nat
  | .ChannelEvent dt et ch v1 v2 =>
    writeVariableLengthInteger dt ++
      ((((channelStatusNibble et) <<< 4) ^^^ (ch % 256)) ::
        [channelD1 et v1, channelD2 et v1 v2]).take (channelNumBytes et)
  | .SystemCommonEvent dt et v1 v2 =>
    writeVariableLengthInteger dt ++ systemCommonBytes et v1 v2
  | .SystemRealTimeEvent dt et =>
    writeVariableLengthValue dt ++ [realTimeStatusByte et]
  | .SystemExclusiveEvent dt d =>
    writeVariableLengthInteger dt ++ 0xF0 :: (writeVariableLengthInteger d.length ++ d)
  | .MetaEvent dt mt d =>
    writeVariableLengthInteger dt ++ 0xFF :: metaTypeByte mt ::
      (writeVariableLengthInteger d.length ++ d)

/-- Track.Chunk from write.go: the chunk `Data` payload is the concatenation of
every event's serialized form, in order. -/
def chunkData : List Event → List Nat
  | [] => []
  | e :: es => e.writeTo ++ chunkData es

/-- Well-formedness of an event for the encode-then-decode round trip: the
spec's "delta-times and data values within their declared bit widths", made
precise on the Go structs — recognized kind for the variant, channel within
4 bits, 7-bit data values, 14-bit combined values (whose events carry the raw
second byte in Value2, as the decoder materializes it), zero in value slots the
wire does not carry, recognized meta types, and VLQ-range lengths. -/
def isWFChannelKind (et : EventType) (v1 v2 : Nat) : Bool :=
  match et with
  | .NoteOff | .NoteOn | .PolyphonicKeyPressure | .ControlChange =>
    v1 ≤ 127 && v2 ≤ 127
  | .ProgramChange | .ChannelPressure => v1 ≤ 127 && v2 = 0
  | .PitchWheelChange => v1 ≤ 16383 && v2 = v1 >>> 7
  | _ => false

def isWFCommonKind (et : EventType) (v1 v2 : Nat) : Bool :=
  match et with
  | .SongPositionPointer => v1 ≤ 16383 && v2 = v1 >>> 7
  | .SongSelect => v1 ≤ 127 && v2 = 0
  | .TuneRequest => v1 = 0 && v2 = 0
  | _ => false

def isRealTimeKind (et : EventType) : Bool :=
  match et with
  | .TimingClock | .Start | .Continue | .Stop | .ActiveSensing => true
  | _ => false

def isWF : Event → Bool
  | .ChannelEvent dt et ch v1 v2 =>
    dt ≤ 0xFFFFFFF && ch ≤ 15 && isWFChannelKind et v1 v2
  | .SystemCommonEvent dt et v1 v2 =>
    dt ≤ 0xFFFFFFF && isWFCommonKind et v1 v2
  | .SystemRealTimeEvent dt et =>
    dt ≤ 0xFFFFFFF && isRealTimeKind et
  | .SystemExclusiveEvent dt d => dt ≤ 0xFFFFFFF && d.length ≤ 0xFFFFFFF
  | .MetaEvent dt mt d => dt ≤ 0xFFFFFFF && knownMeta mt && d.length ≤ 0xFFFFFFF

/-! ### Bit-arithmetic helpers -/

theorem and_127_eq_mod (x : Nat) : x &&& 127 = x % 128 := by
  have h := Nat.and_pow_two_sub_one_eq_mod x 7
  norm_num at h
  exact h

theorem and_15_eq_mod (x : Nat) : x &&& 15 = x % 16 := by
  have h := Nat.and_pow_two_sub_one_eq_mod x 4
  norm_num at h
  exact h

theorem shiftRight7_eq (x : Nat) : x >>> 7 = x / 128 := by
  rw [Nat.shiftRight_eq_div_pow]

theorem shiftRight4_eq (x : Nat) : x >>> 4 = x / 16 := by
  rw [Nat.shiftRight_eq_div_pow]

theorem shiftLeft7_eq (x : Nat) : x <<< 7 = x * 128 := by
  rw [Nat.shiftLeft_eq]

theorem shiftLeft_xor_eq_add (a b k : Nat) (hb : b < 2 ^ k) :
    (a <<< k) ^^^ b = 2 ^ k * a + b := by
  apply Nat.eq_of_testBit_eq
  intro i
  rw [Nat.testBit_mul_pow_two_add a hb i, Nat.testBit_xor, Nat.testBit_shiftLeft]
  by_cases h : i < k
  · have hik : ¬ i ≥ k := by omega
    simp [h, hik]
  · have hik : i ≥ k := by omega
    have hbi : b.testBit i = false :=
      Nat.testBit_lt_two_pow (lt_of_lt_of_le hb (Nat.pow_le_pow_right (by norm_num) hik))
    simp [h, hik, hbi]

theorem xor_128_eq_add (x : Nat) (hx : x < 128) : x ^^^ 128 = 128 + x := by
  rw [Nat.xor_comm]
  have h := shiftLeft_xor_eq_add 1 x 7 (by omega)
  have h2 : (1 : Nat) <<< 7 = 128 := by decide
  rw [h2] at h
  norm_num at h
  exact h

theorem mul_128_xor_eq_add (a b : Nat) (hb : b < 128) : (a * 128) ^^^ b = a * 128 + b := by
  have h := shiftLeft_xor_eq_add a b 7 (by omega)
  rw [shiftLeft7_eq] at h
  rw [h]
  omega

theorem shiftLeft4_xor_eq_add (a b : Nat) (hb : b < 16) : (a <<< 4) ^^^ b = a * 16 + b := by
  rw [shiftLeft_xor_eq_add a b 4 (by omega)]
  omega

theorem mul16_xor_eq_add (a b : Nat) (hb : b < 16) : (a * 16) ^^^ b = a * 16 + b := by
  have h := shiftLeft_xor_eq_add a b 4 (by omega)
  rw [Nat.shiftLeft_eq] at h
  norm_num at h
  rw [h]
  omega

/-! ### VLQ codec lemmas -/

theorem readVLQGo_cont (b : Nat) (rest : List Nat) (res n : Nat)
    (hb1 : 128 ≤ b) (hb2 : b < 256) (hres : res * 128 < 4294967296) :
    readVLQGo (b :: rest) res n = readVLQGo rest (res * 128 + (b - 128)) (n + 1) := by
  have hb7 : ¬ b >>> 7 = 0 := by rw [shiftRight7_eq]; omega
  have hmod : ((res <<< 7) % 4294967296) = res * 128 := by
    rw [shiftLeft7_eq]; omega
  have hand : b &&& 127 = b - 128 := by rw [and_127_eq_mod]; omega
  have hxor : (res * 128) ^^^ (b - 128) = res * 128 + (b - 128) :=
    mul_128_xor_eq_add res (b - 128) (by omega)
  simp only [readVLQGo, hmod, hand, hxor, hb7, if_false]

theorem readVLQGo_last (b : Nat) (rest : List Nat) (res n : Nat)
    (hb : b < 128) (hres : res * 128 < 4294967296) :
    readVLQGo (b :: rest) res n = .ok (res * 128 + b, n + 1) := by
  have hb7 : b >>> 7 = 0 := by rw [shiftRight7_eq]; omega
  have hmod : ((res <<< 7) % 4294967296) = res * 128 := by
    rw [shiftLeft7_eq]; omega
  have hand : b &&& 127 = b := by rw [and_127_eq_mod]; omega
  have hxor : (res * 128) ^^^ b = res * 128 + b := mul_128_xor_eq_add res b (by omega)
  simp only [readVLQGo, hmod, hand, hxor, hb7, if_true]

theorem writeVLV_eq1 (v : Nat) (h : v < 128) : writeVariableLengthValue v = [v] := by
  have h7 : v >>> 7 = 0 := by rw [shiftRight7_eq]; omega
  have hand : v &&& 127 = v := by rw [and_127_eq_mod]; omega
  simp [writeVariableLengthValue, writeVLQGo, h7, hand]

theorem writeVLV_eq2 (v : Nat) (h1 : 128 ≤ v) (h2 : v < 16384) :
    writeVariableLengthValue v = [128 + v / 128, v % 128] := by
  have h7 : v >>> 7 = v / 128 := shiftRight7_eq v
  have h14 : (v / 128) >>> 7 = 0 := by rw [shiftRight7_eq]; omega
  have hand : v / 128 &&& 127 = v / 128 := by rw [and_127_eq_mod]; omega
  have hand0 : v &&& 127 = v % 128 := and_127_eq_mod v
  have hxor : v / 128 ^^^ 128 = 128 + v / 128 := xor_128_eq_add _ (by omega)
  have hne : ¬ v / 128 = 0 := by omega
  simp [writeVariableLengthValue, writeVLQGo, h7, h14, hand, hand0, hxor, hne]

theorem writeVLV_eq3 (v : Nat) (h1 : 16384 ≤ v) (h2 : v < 2097152) :
    writeVariableLengthValue v =
      [128 + v / 16384, 128 + v / 128 % 128, v % 128] := by
  have h7 : v >>> 7 = v / 128 := shiftRight7_eq v
  have h14 : (v / 128) >>> 7 = v / 16384 := by rw [shiftRight7_eq]; omega
  have h21 : (v / 16384) >>> 7 = 0 := by rw [shiftRight7_eq]; omega
  have hand2 : v / 16384 &&& 127 = v / 16384 := by rw [and_127_eq_mod]; omega
  have hand1 : v / 128 &&& 127 = v / 128 % 128 := and_127_eq_mod _
  have hand0 : v &&& 127 = v % 128 := and_127_eq_mod v
  have hxor2 : v / 16384 ^^^ 128 = 128 + v / 16384 := xor_128_eq_add _ (by omega)
  have hxor1 : v / 128 % 128 ^^^ 128 = 128 + v / 128 % 128 := xor_128_eq_add _ (by omega)
  have hne1 : ¬ v / 128 = 0 := by omega
  have hne2 : ¬ v / 16384 = 0 := by omega
  simp [writeVariableLengthValue, writeVLQGo, h7, h14, h21, hand2, hand1, hand0,
    hxor2, hxor1, hne1, hne2]

theorem writeVLV_eq4 (v : Nat) (h1 : 2097152 ≤ v) (h2 : v < 268435456) :
    writeVariableLengthValue v =
      [128 + v / 2097152, 128 + v / 16384 % 128, 128 + v / 128 % 128, v % 128] := by
  have h7 : v >>> 7 = v / 128 := shiftRight7_eq v
  have h14 : (v / 128) >>> 7 = v / 16384 := by rw [shiftRight7_eq]; omega
  have h21 : (v / 16384) >>> 7 = v / 2097152 := by rw [shiftRight7_eq]; omega
  have h28 : (v / 2097152) >>> 7 = 0 := by rw [shiftRight7_eq]; omega
  have hand3 : v / 2097152 &&& 127 = v / 2097152 := by rw [and_127_eq_mod]; omega
  have hand2 : v / 16384 &&& 127 = v / 16384 % 128 := and_127_eq_mod _
  have hand1 : v / 128 &&& 127 = v / 128 % 128 := and_127_eq_mod _
  have hand0 : v &&& 127 = v % 128 := and_127_eq_mod v
  have hxor3 : v / 2097152 ^^^ 128 = 128 + v / 2097152 := xor_128_eq_add _ (by omega)
  have hxor2 : v / 16384 % 128 ^^^ 128 = 128 + v / 16384 % 128 := xor_128_eq_add _ (by omega)
  have hxor1 : v / 128 % 128 ^^^ 128 = 128 + v / 128 % 128 := xor_128_eq_add _ (by omega)
  have hne1 : ¬ v / 128 = 0 := by omega
  have hne2 : ¬ v / 16384 = 0 := by omega
  have hne3 : ¬ v / 2097152 = 0 := by omega
  simp [writeVariableLengthValue, writeVLQGo, h7, h14, h21, h28, hand3, hand2, hand1,
    hand0, hxor3, hxor2, hxor1, hne1, hne2, hne3]

/-- Round trip of the VLQ codec with an arbitrary suffix: decoding a buffer
that starts with `writeVariableLengthValue v` yields `v` and consumes exactly
the encoded bytes. -/
theorem readVLQ_writeVLV (v : Nat) (hv : v ≤ 0xFFFFFFF) (rest : List Nat) :
    readVariableLengthInteger (writeVariableLengthValue v ++ rest) =
      .ok (v, (writeVariableLengthValue v).length) := by
  unfold readVariableLengthInteger
  by_cases c1 : v < 128
  · rw [writeVLV_eq1 v c1]
    rw [List.cons_append, List.nil_append]
    rw [readVLQGo_last v rest 0 0 c1 (by norm_num)]
    norm_num
  · by_cases c2 : v < 16384
    · rw [writeVLV_eq2 v (by omega) c2]
      rw [List.cons_append, List.cons_append, List.nil_append]
      rw [readVLQGo_cont _ _ 0 0 (by omega) (by omega) (by norm_num)]
      have e1 : 0 * 128 + (128 + v / 128 - 128) = v / 128 := by omega
      rw [e1]
      rw [readVLQGo_last _ rest (v / 128) 1 (by omega) (by omega)]
      have e2 : v / 128 * 128 + v % 128 = v := by omega
      rw [e2]
      rfl
    · by_cases c3 : v < 2097152
      · rw [writeVLV_eq3 v (by omega) c3]
        rw [List.cons_append, List.cons_append, List.cons_append, List.nil_append]
        rw [readVLQGo_cont _ _ 0 0 (by omega) (by omega) (by norm_num)]
        have e1 : 0 * 128 + (128 + v / 16384 - 128) = v / 16384 := by omega
        rw [e1]
        rw [readVLQGo_cont _ _ (v / 16384) 1 (by omega) (by omega) (by omega)]
        have e2 : v / 16384 * 128 + (128 + v / 128 % 128 - 128) = v / 128 := by omega
        rw [e2]
        rw [readVLQGo_last _ rest (v / 128) 2 (by omega) (by omega)]
        have e3 : v / 128 * 128 + v % 128 = v := by omega
        rw [e3]
        rfl
      · have c4 : v < 268435456 := by omega
        rw [writeVLV_eq4 v (by omega) c4]
        rw [List.cons_append, List.cons_append, List.cons_append, List.cons_append,
          List.nil_append]
        rw [readVLQGo_cont _ _ 0 0 (by omega) (by omega) (by norm_num)]
        have e1 : 0 * 128 + (128 + v / 2097152 - 128) = v / 2097152 := by omega
        rw [e1]
        rw [readVLQGo_cont _ _ (v / 2097152) 1 (by omega) (by omega) (by omega)]
        have e2 : v / 2097152 * 128 + (128 + v / 16384 % 128 - 128) = v / 16384 := by omega
        rw [e2]
        rw [readVLQGo_cont _ _ (v / 16384) 2 (by omega) (by omega) (by omega)]
        have e3 : v / 16384 * 128 + (128 + v / 128 % 128 - 128) = v / 128 := by omega
        rw [e3]
        rw [readVLQGo_last _ rest (v / 128) 3 (by omega) (by omega)]
        have e4 : v / 128 * 128 + v % 128 = v := by omega
        rw [e4]
        rfl

/-! ### Parser evaluation helpers -/

theorem parseChannelEvent_cons2 (sb dt : Nat) (et : EventType) (d1 d2 : Nat)
    (rest : List Nat) :
    parseChannelEvent sb dt et 2 (d1 :: d2 :: rest) =
      .ok (.ChannelEvent dt et (sb &&& 0xF) d1 d2, 2) := by
  have hlen : ¬ (d1 :: d2 :: rest).length < 2 := by simp
  simp [parseChannelEvent, hlen]

theorem parseChannelEvent_cons1 (sb dt : Nat) (et : EventType) (d1 : Nat)
    (rest : List Nat) :
    parseChannelEvent sb dt et 1 (d1 :: rest) =
      .ok (.ChannelEvent dt et (sb &&& 0xF) d1 0, 1) := by
  have hlen : ¬ (d1 :: rest).length < 1 := by simp
  simp [parseChannelEvent, hlen]

theorem parseSystemCommonEvent_cons2 (dt : Nat) (et : EventType) (d1 d2 : Nat)
    (rest : List Nat) :
    parseSystemCommonEvent dt et 2 (d1 :: d2 :: rest) =
      .ok (.SystemCommonEvent dt et d1 d2, 2) := by
  have hlen : ¬ (d1 :: d2 :: rest).length < 2 := by simp
  simp [parseSystemCommonEvent, hlen]

theorem parseSystemCommonEvent_cons1 (dt : Nat) (et : EventType) (d1 : Nat)
    (rest : List Nat) :
    parseSystemCommonEvent dt et 1 (d1 :: rest) =
      .ok (.SystemCommonEvent dt et d1 0, 1) := by
  have hlen : ¬ (d1 :: rest).length < 1 := by simp
  simp [parseSystemCommonEvent, hlen]

theorem parseSystemCommonEvent_zero (dt : Nat) (et : EventType) (data : List Nat) :
    parseSystemCommonEvent dt et 0 data = .ok (.SystemCommonEvent dt et 0 0, 0) := by
  simp [parseSystemCommonEvent]

/-- One iteration of the decode loop on a buffer that starts with a minimal
delta-time VLQ followed by an explicit status byte: it reduces to the
dispatcher applied after the status byte, consuming the VLQ, the status byte
and whatever the variant parser consumes. -/
theorem parseOne_shape (dt : Nat) (hdt : dt ≤ 0xFFFFFFF) (sb : Nat) (hsb : sb >>> 7 = 1)
    (body rest : List Nat) (rsA : Bool) (rsB : Nat) :
    parseOneEvent ((writeVariableLengthValue dt ++ sb :: body) ++ rest) rsA rsB =
      match dispatch sb dt (body ++ rest) rsA rsB with
      | .error e => .error e
      | .ok (ev, k, a, s) =>
        .ok (ev, (writeVariableLengthValue dt).length + 1 + k, a, s) := by
  have hassoc : (writeVariableLengthValue dt ++ sb :: body) ++ rest
      = writeVariableLengthValue dt ++ (sb :: (body ++ rest)) := by
    simp
  rw [hassoc]
  simp only [parseOneEvent, readVLQ_writeVLV dt hdt, List.drop_left, hsb, if_pos]

/-! ### Per-variant encode-then-decode lemmas -/

theorem parseOne_noteOff (dt ch v1 v2 : Nat) (rest : List Nat) (rsA : Bool) (rsB : Nat)
    (hdt : dt ≤ 0xFFFFFFF) (hch : ch ≤ 15) (h1 : v1 ≤ 127) (h2 : v2 ≤ 127) :
    parseOneEvent ((Event.ChannelEvent dt .NoteOff ch v1 v2).writeTo ++ rest) rsA rsB =
      .ok (.ChannelEvent dt .NoteOff ch v1 v2,
        (Event.ChannelEvent dt .NoteOff ch v1 v2).writeTo.length, true, 128 + ch) := by
  have hsb : (128 : Nat) ^^^ ch % 256 = 128 + ch := by
    have hm : ch % 256 = ch := by omega
    have h16 : (128 : Nat) = 8 * 16 := by norm_num
    rw [hm, h16, mul16_xor_eq_add 8 ch (by omega)]
  have hm1 : v1 % 256 = v1 := by omega
  have hm2 : v2 % 256 = v2 := by omega
  have hw : (Event.ChannelEvent dt .NoteOff ch v1 v2).writeTo
      = writeVariableLengthValue dt ++ (128 + ch) :: [v1, v2] := by
    simp [Event.writeTo, writeVariableLengthInteger, channelStatusNibble, channelD1, channelD2, channelNumBytes, hsb, hm1, hm2]
  rw [hw, parseOne_shape dt hdt (128 + ch) (by rw [shiftRight7_eq]; omega) [v1, v2] rest rsA rsB]
  have h4 : (128 + ch) >>> 4 = 8 := by rw [shiftRight4_eq]; omega
  have hmask : (128 + ch) &&& 0xF = ch := by rw [and_15_eq_mod]; omega
  have hd : dispatch (128 + ch) dt ([v1, v2] ++ rest) rsA rsB
      = .ok (.ChannelEvent dt .NoteOff ch v1 v2, 2, true, 128 + ch) := by
    simp [dispatch, h4, parseNoteOff, parseChannelEvent_cons2, setRS, hmask]
  rw [hd]
  simp [Nat.add_assoc]

theorem parseOne_noteOn (dt ch v1 v2 : Nat) (rest : List Nat) (rsA : Bool) (rsB : Nat)
    (hdt : dt ≤ 0xFFFFFFF) (hch : ch ≤ 15) (h1 : v1 ≤ 127) (h2 : v2 ≤ 127) :
    parseOneEvent ((Event.ChannelEvent dt .NoteOn ch v1 v2).writeTo ++ rest) rsA rsB =
      .ok (.ChannelEvent dt .NoteOn ch v1 v2,
        (Event.ChannelEvent dt .NoteOn ch v1 v2).writeTo.length, true, 144 + ch) := by
  have hsb : (144 : Nat) ^^^ ch % 256 = 144 + ch := by
    have hm : ch % 256 = ch := by omega
    have h16 : (144 : Nat) = 9 * 16 := by norm_num
    rw [hm, h16, mul16_xor_eq_add 9 ch (by omega)]
  have hm1 : v1 % 256 = v1 := by omega
  have hm2 : v2 % 256 = v2 := by omega
  have hw : (Event.ChannelEvent dt .NoteOn ch v1 v2).writeTo
      = writeVariableLengthValue dt ++ (144 + ch) :: [v1, v2] := by
    simp [Event.writeTo, writeVariableLengthInteger, channelStatusNibble, channelD1, channelD2, channelNumBytes, hsb, hm1, hm2]
  rw [hw, parseOne_shape dt hdt (144 + ch) (by rw [shiftRight7_eq]; omega) [v1, v2] rest rsA rsB]
  have h4 : (144 + ch) >>> 4 = 9 := by rw [shiftRight4_eq]; omega
  have hmask : (144 + ch) &&& 0xF = ch := by rw [and_15_eq_mod]; omega
  have hd : dispatch (144 + ch) dt ([v1, v2] ++ rest) rsA rsB
      = .ok (.ChannelEvent dt .NoteOn ch v1 v2, 2, true, 144 + ch) := by
    simp [dispatch, h4, parseNoteOn, parseChannelEvent_cons2, setRS, hmask]
  rw [hd]
  simp [Nat.add_assoc]

theorem parseOne_polyKP (dt ch v1 v2 : Nat) (rest : List Nat) (rsA : Bool) (rsB : Nat)
    (hdt : dt ≤ 0xFFFFFFF) (hch : ch ≤ 15) (h1 : v1 ≤ 127) (h2 : v2 ≤ 127) :
    parseOneEvent ((Event.ChannelEvent dt .PolyphonicKeyPressure ch v1 v2).writeTo ++ rest)
        rsA rsB =
      .ok (.ChannelEvent dt .PolyphonicKeyPressure ch v1 v2,
        (Event.ChannelEvent dt .PolyphonicKeyPressure ch v1 v2).writeTo.length,
        true, 160 + ch) := by
  have hsb : (160 : Nat) ^^^ ch % 256 = 160 + ch := by
    have hm : ch % 256 = ch := by omega
    have h16 : (160 : Nat) = 10 * 16 := by norm_num
    rw [hm, h16, mul16_xor_eq_add 10 ch (by omega)]
  have hm1 : v1 % 256 = v1 := by omega
  have hm2 : v2 % 256 = v2 := by omega
  have hw : (Event.ChannelEvent dt .PolyphonicKeyPressure ch v1 v2).writeTo
      = writeVariableLengthValue dt ++ (160 + ch) :: [v1, v2] := by
    simp [Event.writeTo, writeVariableLengthInteger, channelStatusNibble, channelD1, channelD2, channelNumBytes, hsb, hm1, hm2]
  rw [hw, parseOne_shape dt hdt (160 + ch) (by rw [shiftRight7_eq]; omega) [v1, v2] rest rsA rsB]
  have h4 : (160 + ch) >>> 4 = 10 := by rw [shiftRight4_eq]; omega
  have hmask : (160 + ch) &&& 0xF = ch := by rw [and_15_eq_mod]; omega
  have hd : dispatch (160 + ch) dt ([v1, v2] ++ rest) rsA rsB
      = .ok (.ChannelEvent dt .PolyphonicKeyPressure ch v1 v2, 2, true, 160 + ch) := by
    simp [dispatch, h4, parsePolyphonicKeyPressure, parseChannelEvent_cons2, setRS, hmask]
  rw [hd]
  simp [Nat.add_assoc]

theorem parseOne_controlChange (dt ch v1 v2 : Nat) (rest : List Nat) (rsA : Bool) (rsB : Nat)
    (hdt : dt ≤ 0xFFFFFFF) (hch : ch ≤ 15) (h1 : v1 ≤ 127) (h2 : v2 ≤ 127) :
    parseOneEvent ((Event.ChannelEvent dt .ControlChange ch v1 v2).writeTo ++ rest) rsA rsB =
      .ok (.ChannelEvent dt .ControlChange ch v1 v2,
        (Event.ChannelEvent dt .ControlChange ch v1 v2).writeTo.length, true, 176 + ch) := by
  have hsb : (176 : Nat) ^^^ ch % 256 = 176 + ch := by
    have hm : ch % 256 = ch := by omega
    have h16 : (176 : Nat) = 11 * 16 := by norm_num
    rw [hm, h16, mul16_xor_eq_add 11 ch (by omega)]
  have hm1 : v1 % 256 = v1 := by omega
  have hm2 : v2 % 256 = v2 := by omega
  have hw : (Event.ChannelEvent dt .ControlChange ch v1 v2).writeTo
      = writeVariableLengthValue dt ++ (176 + ch) :: [v1, v2] := by
    simp [Event.writeTo, writeVariableLengthInteger, channelStatusNibble, channelD1, channelD2, channelNumBytes, hsb, hm1, hm2]
  rw [hw, parseOne_shape dt hdt (176 + ch) (by rw [shiftRight7_eq]; omega) [v1, v2] rest rsA rsB]
  have h4 : (176 + ch) >>> 4 = 11 := by rw [shiftRight4_eq]; omega
  have hmask : (176 + ch) &&& 0xF = ch := by rw [and_15_eq_mod]; omega
  have hd : dispatch (176 + ch) dt ([v1, v2] ++ rest) rsA rsB
      = .ok (.ChannelEvent dt .ControlChange ch v1 v2, 2, true, 176 + ch) := by
    simp [dispatch, h4, parseControlChange, parseChannelEvent_cons2, setRS, hmask]
  rw [hd]
  simp [Nat.add_assoc]

theorem parseOne_programChange (dt ch v1 : Nat) (rest : List Nat) (rsA : Bool) (rsB : Nat)
    (hdt : dt ≤ 0xFFFFFFF) (hch : ch ≤ 15) (h1 : v1 ≤ 127) :
    parseOneEvent ((Event.ChannelEvent dt .ProgramChange ch v1 0).writeTo ++ rest) rsA rsB =
      .ok (.ChannelEvent dt .ProgramChange ch v1 0,
        (Event.ChannelEvent dt .ProgramChange ch v1 0).writeTo.length, true, 192 + ch) := by
  have hsb : (192 : Nat) ^^^ ch % 256 = 192 + ch := by
    have hm : ch % 256 = ch := by omega
    have h16 : (192 : Nat) = 12 * 16 := by norm_num
    rw [hm, h16, mul16_xor_eq_add 12 ch (by omega)]
  have hm1 : v1 % 256 = v1 := by omega
  have hw : (Event.ChannelEvent dt .ProgramChange ch v1 0).writeTo
      = writeVariableLengthValue dt ++ (192 + ch) :: [v1] := by
    simp [Event.writeTo, writeVariableLengthInteger, channelStatusNibble, channelD1, channelD2, channelNumBytes, hsb, hm1]
  rw [hw, parseOne_shape dt hdt (192 + ch) (by rw [shiftRight7_eq]; omega) [v1] rest rsA rsB]
  have h4 : (192 + ch) >>> 4 = 12 := by rw [shiftRight4_eq]; omega
  have hmask : (192 + ch) &&& 0xF = ch := by rw [and_15_eq_mod]; omega
  have hd : dispatch (192 + ch) dt ([v1] ++ rest) rsA rsB
      = .ok (.ChannelEvent dt .ProgramChange ch v1 0, 1, true, 192 + ch) := by
    simp [dispatch, h4, parseProgramChange, parseChannelEvent_cons1, setRS, hmask]
  rw [hd]
  simp [Nat.add_assoc]

theorem parseOne_channelPressure (dt ch v1 : Nat) (rest : List Nat) (rsA : Bool) (rsB : Nat)
    (hdt : dt ≤ 0xFFFFFFF) (hch : ch ≤ 15) (h1 : v1 ≤ 127) :
    parseOneEvent ((Event.ChannelEvent dt .ChannelPressure ch v1 0).writeTo ++ rest) rsA rsB =
      .ok (.ChannelEvent dt .ChannelPressure ch v1 0,
        (Event.ChannelEvent dt .ChannelPressure ch v1 0).writeTo.length, true, 208 + ch) := by
  have hsb : (208 : Nat) ^^^ ch % 256 = 208 + ch := by
    have hm : ch % 256 = ch := by omega
    have h16 : (208 : Nat) = 13 * 16 := by norm_num
    rw [hm, h16, mul16_xor_eq_add 13 ch (by omega)]
  have hm1 : v1 % 256 = v1 := by omega
  have hw : (Event.ChannelEvent dt .ChannelPressure ch v1 0).writeTo
      = writeVariableLengthValue dt ++ (208 + ch) :: [v1] := by
    simp [Event.writeTo, writeVariableLengthInteger, channelStatusNibble, channelD1, channelD2, channelNumBytes, hsb, hm1]
  rw [hw, parseOne_shape dt hdt (208 + ch) (by rw [shiftRight7_eq]; omega) [v1] rest rsA rsB]
  have h4 : (208 + ch) >>> 4 = 13 := by rw [shiftRight4_eq]; omega
  have hmask : (208 + ch) &&& 0xF = ch := by rw [and_15_eq_mod]; omega
  have hd : dispatch (208 + ch) dt ([v1] ++ rest) rsA rsB
      = .ok (.ChannelEvent dt .ChannelPressure ch v1 0, 1, true, 208 + ch) := by
    simp [dispatch, h4, parseChannelPressure, parseChannelEvent_cons1, setRS, hmask]
  rw [hd]
  simp [Nat.add_assoc]

theorem parseOne_pitchWheel (dt ch v1 : Nat) (rest : List Nat) (rsA : Bool) (rsB : Nat)
    (hdt : dt ≤ 0xFFFFFFF) (hch : ch ≤ 15) (h1 : v1 ≤ 16383) :
    parseOneEvent ((Event.ChannelEvent dt .PitchWheelChange ch v1 (v1 / 128)).writeTo ++ rest)
        rsA rsB =
      .ok (.ChannelEvent dt .PitchWheelChange ch v1 (v1 / 128),
        (Event.ChannelEvent dt .PitchWheelChange ch v1 (v1 / 128)).writeTo.length,
        true, 224 + ch) := by
  have hsb : (224 : Nat) ^^^ ch % 256 = 224 + ch := by
    have hm : ch % 256 = ch := by omega
    have h16 : (224 : Nat) = 14 * 16 := by norm_num
    rw [hm, h16, mul16_xor_eq_add 14 ch (by omega)]
  have hd1 : v1 &&& 127 = v1 % 128 := and_127_eq_mod v1
  have hd2 : (v1 >>> 7) % 256 = v1 / 128 := by rw [shiftRight7_eq]; omega
  have hw : (Event.ChannelEvent dt .PitchWheelChange ch v1 (v1 / 128)).writeTo
      = writeVariableLengthValue dt ++ (224 + ch) :: [v1 % 128, v1 / 128] := by
    simp [Event.writeTo, writeVariableLengthInteger, channelStatusNibble, channelD1, channelD2, channelNumBytes, hsb, hd1, hd2]
  rw [hw, parseOne_shape dt hdt (224 + ch) (by rw [shiftRight7_eq]; omega)
    [v1 % 128, v1 / 128] rest rsA rsB]
  have h4 : (224 + ch) >>> 4 = 14 := by rw [shiftRight4_eq]; omega
  have hmask : (224 + ch) &&& 0xF = ch := by rw [and_15_eq_mod]; omega
  have hcomb : ((((v1 / 128) <<< 7) % 65536) ^^^ v1 % 128) % 65536 = v1 := by
    have hs : ((v1 / 128) <<< 7) % 65536 = v1 / 128 * 128 := by rw [shiftLeft7_eq]; omega
    rw [hs, mul_128_xor_eq_add _ _ (by omega)]
    omega
  have hd : dispatch (224 + ch) dt ([v1 % 128, v1 / 128] ++ rest) rsA rsB
      = .ok (.ChannelEvent dt .PitchWheelChange ch v1 (v1 / 128), 2, true, 224 + ch) := by
    simp [dispatch, h4, parsePitchWheelChange, parseChannelEvent_cons2, setRS, hmask, hcomb]
  rw [hd]
  simp [Nat.add_assoc]

theorem parseOne_songPosition (dt v1 : Nat) (rest : List Nat) (rsA : Bool) (rsB : Nat)
    (hdt : dt ≤ 0xFFFFFFF) (h1 : v1 ≤ 16383) :
    parseOneEvent
        ((Event.SystemCommonEvent dt .SongPositionPointer v1 (v1 / 128)).writeTo ++ rest)
        rsA rsB =
      .ok (.SystemCommonEvent dt .SongPositionPointer v1 (v1 / 128),
        (Event.SystemCommonEvent dt .SongPositionPointer v1 (v1 / 128)).writeTo.length,
        false, rsB) := by
  have hd1 : v1 &&& 127 = v1 % 128 := and_127_eq_mod v1
  have hd2 : (v1 >>> 7) % 256 = v1 / 128 := by rw [shiftRight7_eq]; omega
  have hw : (Event.SystemCommonEvent dt .SongPositionPointer v1 (v1 / 128)).writeTo
      = writeVariableLengthValue dt ++ 0xF2 :: [v1 % 128, v1 / 128] := by
    simp [Event.writeTo, writeVariableLengthInteger, systemCommonBytes, hd1, hd2]
  rw [hw, parseOne_shape dt hdt 0xF2 (by decide) [v1 % 128, v1 / 128] rest rsA rsB]
  have hcomb : ((((v1 / 128) <<< 7) % 65536) ^^^ v1 % 128) % 65536 = v1 := by
    have hs : ((v1 / 128) <<< 7) % 65536 = v1 / 128 * 128 := by rw [shiftLeft7_eq]; omega
    rw [hs, mul_128_xor_eq_add _ _ (by omega)]
    omega
  have hd : dispatch 0xF2 dt ([v1 % 128, v1 / 128] ++ rest) rsA rsB
      = .ok (.SystemCommonEvent dt .SongPositionPointer v1 (v1 / 128), 2, false, rsB) := by
    simp [dispatch, parseSongPositionPointer, parseSystemCommonEvent_cons2, setRS, hcomb]
  rw [hd]
  simp [Nat.add_assoc]

theorem parseOne_songSelect (dt v1 : Nat) (rest : List Nat) (rsA : Bool) (rsB : Nat)
    (hdt : dt ≤ 0xFFFFFFF) (h1 : v1 ≤ 127) :
    parseOneEvent ((Event.SystemCommonEvent dt .SongSelect v1 0).writeTo ++ rest) rsA rsB =
      .ok (.SystemCommonEvent dt .SongSelect v1 0,
        (Event.SystemCommonEvent dt .SongSelect v1 0).writeTo.length, false, rsB) := by
  have hm1 : v1 % 256 = v1 := by omega
  have hw : (Event.SystemCommonEvent dt .SongSelect v1 0).writeTo
      = writeVariableLengthValue dt ++ 0xF3 :: [v1] := by
    simp [Event.writeTo, writeVariableLengthInteger, systemCommonBytes, hm1]
  rw [hw, parseOne_shape dt hdt 0xF3 (by decide) [v1] rest rsA rsB]
  have hd : dispatch 0xF3 dt ([v1] ++ rest) rsA rsB
      = .ok (.SystemCommonEvent dt .SongSelect v1 0, 1, false, rsB) := by
    simp [dispatch, parseSongSelect, parseSystemCommonEvent_cons1, setRS]
  rw [hd]
  simp [Nat.add_assoc]

theorem parseOne_tuneRequest (dt : Nat) (rest : List Nat) (rsA : Bool) (rsB : Nat)
    (hdt : dt ≤ 0xFFFFFFF) :
    parseOneEvent ((Event.SystemCommonEvent dt .TuneRequest 0 0).writeTo ++ rest) rsA rsB =
      .ok (.SystemCommonEvent dt .TuneRequest 0 0,
        (Event.SystemCommonEvent dt .TuneRequest 0 0).writeTo.length, false, rsB) := by
  have hw : (Event.SystemCommonEvent dt .TuneRequest 0 0).writeTo
      = writeVariableLengthValue dt ++ 0xF6 :: [] := by
    simp [Event.writeTo, writeVariableLengthInteger, systemCommonBytes]
  rw [hw, parseOne_shape dt hdt 0xF6 (by decide) [] rest rsA rsB]
  have hd : dispatch 0xF6 dt ([] ++ rest) rsA rsB
      = .ok (.SystemCommonEvent dt .TuneRequest 0 0, 0, false, rsB) := by
    simp [dispatch, parseTuneRequest, parseSystemCommonEvent_zero, setRS]
  rw [hd]
  simp [Nat.add_assoc]

theorem parseOne_realtime (dt : Nat) (et : EventType) (rest : List Nat) (rsA : Bool)
    (rsB : Nat) (hdt : dt ≤ 0xFFFFFFF)
    (het : et = .TimingClock ∨ et = .Start ∨ et = .Continue ∨ et = .Stop ∨
      et = .ActiveSensing) :
    parseOneEvent ((Event.SystemRealTimeEvent dt et).writeTo ++ rest) rsA rsB =
      .ok (.SystemRealTimeEvent dt et,
        (Event.SystemRealTimeEvent dt et).writeTo.length, rsA, rsB) := by
  rcases het with h | h | h | h | h <;> subst h
  · rw [show (Event.SystemRealTimeEvent dt EventType.TimingClock).writeTo
        = writeVariableLengthValue dt ++ 0xF8 :: [] from rfl]
    rw [parseOne_shape dt hdt 0xF8 (by decide) [] rest rsA rsB]
    have hd : dispatch 0xF8 dt ([] ++ rest) rsA rsB
        = .ok (.SystemRealTimeEvent dt .TimingClock, 0, rsA, rsB) := by
      simp [dispatch, parseSystemRealTimeEvent, setRS]
    rw [hd]
    simp [Nat.add_assoc]
  · rw [show (Event.SystemRealTimeEvent dt EventType.Start).writeTo
        = writeVariableLengthValue dt ++ 0xFA :: [] from rfl]
    rw [parseOne_shape dt hdt 0xFA (by decide) [] rest rsA rsB]
    have hd : dispatch 0xFA dt ([] ++ rest) rsA rsB
        = .ok (.SystemRealTimeEvent dt .Start, 0, rsA, rsB) := by
      simp [dispatch, parseSystemRealTimeEvent, setRS]
    rw [hd]
    simp [Nat.add_assoc]
  · rw [show (Event.SystemRealTimeEvent dt EventType.Continue).writeTo
        = writeVariableLengthValue dt ++ 0xFB :: [] from rfl]
    rw [parseOne_shape dt hdt 0xFB (by decide) [] rest rsA rsB]
    have hd : dispatch 0xFB dt ([] ++ rest) rsA rsB
        = .ok (.SystemRealTimeEvent dt .Continue, 0, rsA, rsB) := by
      simp [dispatch, parseSystemRealTimeEvent, setRS]
    rw [hd]
    simp [Nat.add_assoc]
  · rw [show (Event.SystemRealTimeEvent dt EventType.Stop).writeTo
        = writeVariableLengthValue dt ++ 0xFC :: [] from rfl]
    rw [parseOne_shape dt hdt 0xFC (by decide) [] rest rsA rsB]
    have hd : dispatch 0xFC dt ([] ++ rest) rsA rsB
        = .ok (.SystemRealTimeEvent dt .Stop, 0, rsA, rsB) := by
      simp [dispatch, parseSystemRealTimeEvent, setRS]
    rw [hd]
    simp [Nat.add_assoc]
  · rw [show (Event.SystemRealTimeEvent dt EventType.ActiveSensing).writeTo
        = writeVariableLengthValue dt ++ 0xFE :: [] from rfl]
    rw [parseOne_shape dt hdt 0xFE (by decide) [] rest rsA rsB]
    have hd : dispatch 0xFE dt ([] ++ rest) rsA rsB
        = .ok (.SystemRealTimeEvent dt .ActiveSensing, 0, rsA, rsB) := by
      simp [dispatch, parseSystemRealTimeEvent, setRS]
    rw [hd]
    simp [Nat.add_assoc]

theorem parseOne_sysex (dt : Nat) (d rest : List Nat) (rsA : Bool) (rsB : Nat)
    (hdt : dt ≤ 0xFFFFFFF) (hlen : d.length ≤ 0xFFFFFFF) :
    parseOneEvent ((Event.SystemExclusiveEvent dt d).writeTo ++ rest) rsA rsB =
      .ok (.SystemExclusiveEvent dt d,
        (Event.SystemExclusiveEvent dt d).writeTo.length, false, rsB) := by
  have hw : (Event.SystemExclusiveEvent dt d).writeTo
      = writeVariableLengthValue dt ++ 0xF0 ::
        (writeVariableLengthValue d.length ++ d) := rfl
  rw [hw, parseOne_shape dt hdt 0xF0 (by decide) _ rest rsA rsB]
  have hp : parseSystemExclusive 0xF0 dt (writeVariableLengthValue d.length ++ (d ++ rest))
      = .ok (.SystemExclusiveEvent dt d,
          (writeVariableLengthValue d.length).length + d.length) := by
    have hno : ¬ (d ++ rest).length < d.length := by simp
    simp [parseSystemExclusive, readVLQ_writeVLV d.length hlen (d ++ rest),
      List.drop_left, hno, List.take_left]
  have hd : dispatch 0xF0 dt ((writeVariableLengthValue d.length ++ d) ++ rest) rsA rsB
      = .ok (.SystemExclusiveEvent dt d,
          (writeVariableLengthValue d.length).length + d.length, false, rsB) := by
    rw [List.append_assoc]
    simp [dispatch, hp, setRS]
  rw [hd]
  simp [Nat.add_assoc]
  omega

theorem parseOne_meta (dt mt : Nat) (d rest : List Nat) (rsA : Bool) (rsB : Nat)
    (hdt : dt ≤ 0xFFFFFFF) (hmt : knownMeta mt = true) (hlen : d.length ≤ 0xFFFFFFF) :
    parseOneEvent ((Event.MetaEvent dt mt d).writeTo ++ rest) rsA rsB =
      .ok (.MetaEvent dt mt d, (Event.MetaEvent dt mt d).writeTo.length, rsA, rsB) := by
  have hw : (Event.MetaEvent dt mt d).writeTo
      = writeVariableLengthValue dt ++ 0xFF ::
        (mt :: (writeVariableLengthValue d.length ++ d)) := by
    simp [Event.writeTo, writeVariableLengthInteger, metaTypeByte, hmt]
  rw [hw, parseOne_shape dt hdt 0xFF (by decide) _ rest rsA rsB]
  have hp : parseMeta 0xFF dt (mt :: (writeVariableLengthValue d.length ++ (d ++ rest)))
      = .ok (.MetaEvent dt mt d,
          (writeVariableLengthValue d.length).length + d.length + 1) := by
    have hno : ¬ (d ++ rest).length < d.length := by simp
    simp [parseMeta, readVLQ_writeVLV d.length hlen (d ++ rest),
      List.drop_left, hno, List.take_left]
  have hd : dispatch 0xFF dt ((mt :: (writeVariableLengthValue d.length ++ d)) ++ rest)
      rsA rsB
      = .ok (.MetaEvent dt mt d,
          (writeVariableLengthValue d.length).length + d.length + 1, rsA, rsB) := by
    have hassoc : (mt :: (writeVariableLengthValue d.length ++ d)) ++ rest
        = mt :: (writeVariableLengthValue d.length ++ (d ++ rest)) := by simp
    rw [hassoc]
    simp [dispatch, hp, setRS]
  rw [hd]
  simp [Nat.add_assoc]
  omega

/-- Decoding one event from a buffer that starts with the serialized form of a
well-formed event succeeds, reproduces that event, and consumes exactly its
serialized bytes (with some resulting running-status state). -/
theorem parseOne_writeTo (e : Event) (hwf : isWF e = true) (rest : List Nat)
    (rsA : Bool) (rsB : Nat) :
    ∃ a s, parseOneEvent (e.writeTo ++ rest) rsA rsB = .ok (e, e.writeTo.length, a, s) := by
  cases e with
  | ChannelEvent dt et ch v1 v2 =>
    cases et <;> simp [isWF, isWFChannelKind] at hwf
    case NoteOff =>
      obtain ⟨⟨hdt, hch⟩, h1, h2⟩ := hwf
      exact ⟨_, _, parseOne_noteOff dt ch v1 v2 rest rsA rsB hdt hch h1 h2⟩
    case NoteOn =>
      obtain ⟨⟨hdt, hch⟩, h1, h2⟩ := hwf
      exact ⟨_, _, parseOne_noteOn dt ch v1 v2 rest rsA rsB hdt hch h1 h2⟩
    case PolyphonicKeyPressure =>
      obtain ⟨⟨hdt, hch⟩, h1, h2⟩ := hwf
      exact ⟨_, _, parseOne_polyKP dt ch v1 v2 rest rsA rsB hdt hch h1 h2⟩
    case ControlChange =>
      obtain ⟨⟨hdt, hch⟩, h1, h2⟩ := hwf
      exact ⟨_, _, parseOne_controlChange dt ch v1 v2 rest rsA rsB hdt hch h1 h2⟩
    case ProgramChange =>
      obtain ⟨⟨hdt, hch⟩, h1, h2⟩ := hwf
      subst h2
      exact ⟨_, _, parseOne_programChange dt ch v1 rest rsA rsB hdt hch h1⟩
    case ChannelPressure =>
      obtain ⟨⟨hdt, hch⟩, h1, h2⟩ := hwf
      subst h2
      exact ⟨_, _, parseOne_channelPressure dt ch v1 rest rsA rsB hdt hch h1⟩
    case PitchWheelChange =>
      obtain ⟨⟨hdt, hch⟩, h1, h2⟩ := hwf
      subst h2
      rw [shiftRight7_eq]
      exact ⟨_, _, parseOne_pitchWheel dt ch v1 rest rsA rsB hdt hch h1⟩
  | SystemCommonEvent dt et v1 v2 =>
    cases et <;> simp [isWF, isWFCommonKind] at hwf
    case SongPositionPointer =>
      obtain ⟨hdt, h1, h2⟩ := hwf
      subst h2
      rw [shiftRight7_eq]
      exact ⟨_, _, parseOne_songPosition dt v1 rest rsA rsB hdt h1⟩
    case SongSelect =>
      obtain ⟨hdt, h1, h2⟩ := hwf
      subst h2
      exact ⟨_, _, parseOne_songSelect dt v1 rest rsA rsB hdt h1⟩
    case TuneRequest =>
      obtain ⟨hdt, h1, h2⟩ := hwf
      subst h1
      subst h2
      exact ⟨_, _, parseOne_tuneRequest dt rest rsA rsB hdt⟩
  | SystemRealTimeEvent dt et =>
    cases et <;> simp [isWF, isRealTimeKind] at hwf
    case TimingClock =>
      exact ⟨_, _, parseOne_realtime dt .TimingClock rest rsA rsB hwf (.inl rfl)⟩
    case Start =>
      exact ⟨_, _, parseOne_realtime dt .Start rest rsA rsB hwf (.inr (.inl rfl))⟩
    case Continue =>
      exact ⟨_, _, parseOne_realtime dt .Continue rest rsA rsB hwf (.inr (.inr (.inl rfl)))⟩
    case Stop =>
      exact ⟨_, _,
        parseOne_realtime dt .Stop rest rsA rsB hwf (.inr (.inr (.inr (.inl rfl))))⟩
    case ActiveSensing =>
      exact ⟨_, _,
        parseOne_realtime dt .ActiveSensing rest rsA rsB hwf (.inr (.inr (.inr (.inr rfl))))⟩
  | SystemExclusiveEvent dt d =>
    simp [isWF] at hwf
    obtain ⟨hdt, hlen⟩ := hwf
    exact ⟨_, _, parseOne_sysex dt d rest rsA rsB hdt hlen⟩
  | MetaEvent dt mt d =>
    simp [isWF] at hwf
    obtain ⟨⟨hdt, hmt⟩, hlen⟩ := hwf
    exact ⟨_, _, parseOne_meta dt mt d rest rsA rsB hdt hmt hlen⟩

/-- Every serialized event is a non-empty byte string (the delta-time VLQ alone
is at least one byte). -/
theorem writeTo_ne_nil (e : Event) : e.writeTo ≠ [] := by
  cases e with
  | ChannelEvent dt et ch v1 v2 =>
    cases et <;> simp [Event.writeTo, channelNumBytes]
  | SystemCommonEvent dt et v1 v2 =>
    cases et <;> simp [Event.writeTo, systemCommonBytes]
  | SystemRealTimeEvent dt et => simp [Event.writeTo]
  | SystemExclusiveEvent dt d => simp [Event.writeTo]
  | MetaEvent dt mt d => simp [Event.writeTo]

theorem chunkData_cons_ne_nil (e : Event) (es : List Event) : chunkData (e :: es) ≠ [] := by
  simp [chunkData, writeTo_ne_nil e]

/-- Main loop round trip: running the decode loop on the encoding of a
non-empty list of well-formed events returns exactly those events, for any
sufficient fuel and any initial running-status state. -/
theorem eventsLoop_chunkData (es : List Event) (hne : es ≠ [])
    (hwf : ∀ e ∈ es, isWF e = true) :
    ∀ fuel, (chunkData es).length ≤ fuel → ∀ rsA rsB,
      eventsLoop fuel (chunkData es) rsA rsB = .ok es := by
  induction es with
  | nil => exact absurd rfl hne
  | cons e es ih =>
    intro fuel hfuel rsA rsB
    have hwfe : isWF e = true := hwf e (by simp)
    have hwfes : ∀ x ∈ es, isWF x = true := fun x hx => hwf x (by simp [hx])
    have hcd : chunkData (e :: es) = e.writeTo ++ chunkData es := rfl
    obtain ⟨a, s, hpe⟩ := parseOne_writeTo e hwfe (chunkData es) rsA rsB
    have hlen1 : 1 ≤ e.writeTo.length := by
      cases hW : e.writeTo with
      | nil => exact absurd hW (writeTo_ne_nil e)
      | cons x xs => simp
    rw [hcd] at hfuel ⊢
    rw [List.length_append] at hfuel
    cases fuel with
    | zero => omega
    | succ f =>
      simp only [eventsLoop, hpe, List.drop_left]
      cases es with
      | nil => simp [chunkData]
      | cons e2 es2 =>
        rw [if_neg (chunkData_cons_ne_nil e2 es2)]
        rw [ih (by simp) hwfes f (by omega) a s]

/-- Decode-of-encode round trip for `Chunk.Events` and `Track.Chunk`: the
payload built by the track encoder from a non-empty list of well-formed events
decodes to exactly that list. -/
theorem events_chunkData (es : List Event) (hne : es ≠ [])
    (hwf : ∀ e ∈ es, isWF e = true) : Events (chunkData es) = .ok es :=
  eventsLoop_chunkData es hne hwf ((chunkData es).length + 1) (Nat.le_succ _) false 0

/-- Running-status fields of a successful `setRS` result are exactly the ones
the dispatcher's switch assigned. -/
theorem setRS_ok_rs (r : Except Err (Event × Nat)) (x : Bool) (y : Nat) (ev : Event)
    (n : Nat) (a : Bool) (s : Nat) (h : setRS r x y = .ok (ev, n, a, s)) :
    a = x ∧ s = y := by
  cases r with
  | error e => simp [setRS] at h
  | ok p =>
    obtain ⟨ev0, n0⟩ := p
    simp [setRS] at h
    exact ⟨h.2.2.1.symm, h.2.2.2.symm⟩

/-- The VLQ decode loop fails (necessarily with the malformed-VLQ error) if and
only if every byte of the remaining buffer has its high bit set — in
particular the loop is never stopped by a byte-count cap. -/
theorem readVLQGo_error_iff (bs : List Nat) : ∀ res n,
    (readVLQGo bs res n = .error .malformedVLQ ↔ ∀ b ∈ bs, b >>> 7 ≠ 0) := by
  induction bs with
  | nil => simp [readVLQGo]
  | cons b rest ih =>
    intro res n
    by_cases h : b >>> 7 = 0
    · simp only [readVLQGo, h, if_pos]
      simp [h]
    · simp only [readVLQGo, h, if_neg, ite_false]
      rw [ih]
      simp [h]

/-! ### Claim theorems -/

/-- C4: for every value in [0, 0x0FFFFFFF], decoding the buffer produced by the
VLQ encoder yields exactly that value together with the length of the encoded
buffer, with no error; and encoding 0 yields the single byte 0x00. -/
theorem c4_vlq_roundtrip (v : Nat) (hv : v ≤ 0x0FFFFFFF) :
    readVariableLengthInteger (writeVariableLengthValue v)
      = .ok (v, (writeVariableLengthValue v).length)
    ∧ writeVariableLengthValue 0 = [0x00] := by
  constructor
  · have h := readVLQ_writeVLV v hv []
    rw [List.append_nil] at h
    exact h
  · exact writeVLV_eq1 0 (by norm_num)

/-- Witness for C4 at v = 1000000 (one of the spec's own test values). -/
theorem c4_vlq_roundtrip_witness :
    readVariableLengthInteger (writeVariableLengthValue 1000000)
      = .ok (1000000, (writeVariableLengthValue 1000000).length)
    ∧ writeVariableLengthValue 0 = [0x00] :=
  c4_vlq_roundtrip 1000000 (by decide)

/-- C5 counterexample: no byte with the high bit clear occurs in the first 5
bytes of this buffer, yet the decoder succeeds (consuming 6 bytes), because
`ReadVariableLengthInteger` has no 5-byte cap — it scans until the buffer
supplies a terminating byte. -/
theorem c5_counterexample :
    (∀ b ∈ [0x80, 0x80, 0x80, 0x80, 0x80], b >>> 7 ≠ 0)
    ∧ readVariableLengthInteger ([0x80, 0x80, 0x80, 0x80, 0x80] ++ [0x00])
      = .ok (0, 6) :=
  ⟨by decide, rfl⟩

/-- C5 amended: the VLQ decoder fails — always with the malformed-VLQ error —
exactly when the supplied buffer contains no byte with the high bit clear
(i.e. only when the buffer is exhausted); there is no 5-byte cap, so
arbitrarily many leading continuation bytes are consumed. -/
theorem c5_amended_no_cap (bs : List Nat) :
    readVariableLengthInteger bs = .error .malformedVLQ ↔ ∀ b ∈ bs, b >>> 7 ≠ 0 :=
  readVLQGo_error_iff bs 0 0

/-- C10: decoding an empty track-chunk payload fails with the malformed-VLQ
error (the loop begins by reading a delta-time VLQ from the empty buffer), so
it never returns an empty event sequence. -/
theorem c10_empty_payload : Events [] = .error .malformedVLQ := rfl

/-- C3: the canonical channel.go `parseChannelEvent` assigns the first data
byte to Value1 and the second to Value2 for two-value kinds (and the single
byte to Value1 for one-value kinds), but the midi.go draft `ParseChannelEvent`
leaves Value1 at 0 for two-value kinds, assigning only Value2 — the draft
contradicts the claim at every two-byte decode. -/
theorem c3_channel_value_assignment :
    (∀ (sb dt : Nat) (et : EventType) (d1 d2 : Nat) (rest : List Nat),
      parseChannelEvent sb dt et 2 (d1 :: d2 :: rest)
        = .ok (.ChannelEvent dt et (sb &&& 0xF) d1 d2, 2)
      ∧ ParseChannelEvent sb dt et 2 (d1 :: d2 :: rest)
        = .ok (.ChannelEvent dt et (sb &&& 0xF) 0 d2, 2))
    ∧ (∀ (sb dt : Nat) (et : EventType) (d1 : Nat) (rest : List Nat),
      parseChannelEvent sb dt et 1 (d1 :: rest)
        = .ok (.ChannelEvent dt et (sb &&& 0xF) d1 0, 1)
      ∧ ParseChannelEvent sb dt et 1 (d1 :: rest)
        = .ok (.ChannelEvent dt et (sb &&& 0xF) d1 0, 1)) := by
  constructor
  · intro sb dt et d1 d2 rest
    have hlen : ¬ (d1 :: d2 :: rest).length < 2 := by simp
    exact ⟨parseChannelEvent_cons2 sb dt et d1 d2 rest, by simp [ParseChannelEvent, hlen]⟩
  · intro sb dt et d1 rest
    have hlen : ¬ (d1 :: rest).length < 1 := by simp
    exact ⟨parseChannelEvent_cons1 sb dt et d1 rest, by simp [ParseChannelEvent, hlen]⟩

/-- C9: a meta status byte (0xFF) leaves both running-status variables exactly
as they were whenever its parse succeeds; concretely, a NoteOn running status
established before a meta event is still reusable by a high-bit-clear data
byte immediately after that event. -/
theorem c9_meta_transparent_to_running_status (dt : Nat) (data : List Nat)
    (rsA : Bool) (rsB : Nat) (ev : Event) (n : Nat) (a : Bool) (s : Nat)
    (h : dispatch 0xFF dt data rsA rsB = .ok (ev, n, a, s)) :
    (a = rsA ∧ s = rsB)
    ∧ Events [0x00, 0x90, 0x40, 0x60, 0x00, 0xFF, 0x01, 0x00, 0x00, 0x41, 0x61]
      = .ok [.ChannelEvent 0 .NoteOn 0 0x40 0x60, .MetaEvent 0 1 [],
             .ChannelEvent 0 .NoteOn 0 0x41 0x61] := by
  refine ⟨?_, rfl⟩
  simp only [dispatch] at h
  norm_num at h
  exact setRS_ok_rs _ _ _ _ _ _ _ h

/-- Witness for C9: the meta event 0xFF 0x01 (length 0) parsed under an active
NoteOn running status 0x90 keeps that running status. -/
theorem c9_meta_transparent_witness :
    ((true : Bool) = true ∧ (0x90 : Nat) = 0x90)
    ∧ Events [0x00, 0x90, 0x40, 0x60, 0x00, 0xFF, 0x01, 0x00, 0x00, 0x41, 0x61]
      = .ok [.ChannelEvent 0 .NoteOn 0 0x40 0x60, .MetaEvent 0 1 [],
             .ChannelEvent 0 .NoteOn 0 0x41 0x61] :=
  c9_meta_transparent_to_running_status 0 [1, 0] true 0x90 (.MetaEvent 0 1 []) 2
    true 0x90 (by rfl)

/-- C2 counterexample: 0xF9 lies in the claim's "system real-time" range
0xF8–0xFE, but instead of leaving the running status unchanged and continuing,
the decoder aborts with the unknown-status-byte error (while 0xF8 in the same
position is processed transparently). -/
theorem c2_counterexample :
    Events [0x00, 0xF9, 0x00, 0xF8] = .error (.unknownStatusByte 0xF9)
    ∧ Events [0x00, 0xF8, 0x00, 0xF8]
      = .ok [.SystemRealTimeEvent 0 .TimingClock, .SystemRealTimeEvent 0 .TimingClock] :=
  ⟨rfl, rfl⟩

/-- C2 amended: the running-status state evolves exactly by: channel
voice/mode status bytes (high nibble 0x8–0xE) set/refresh it to that byte;
0xF0, 0xF2, 0xF3, 0xF6 and 0xF7 clear the active flag (keeping the stale
byte); the recognized system real-time bytes 0xF8, 0xFA, 0xFB, 0xFC, 0xFE and
the meta status 0xFF leave it unchanged; 0xF9 and 0xFD abort decoding with the
unknown-status-byte error; and a high-bit-clear byte after a delta-time fails
with the data-byte-without-running-status error when no running status is
active, otherwise the last status byte is reused without consuming a byte. -/
theorem c2_running_status_rule :
    (∀ (sb dt : Nat) (data : List Nat) (rsA : Bool) (rsB : Nat) (ev : Event)
      (n : Nat) (a : Bool) (s : Nat), 0x8 ≤ sb >>> 4 → sb >>> 4 ≤ 0xE →
      dispatch sb dt data rsA rsB = .ok (ev, n, a, s) → a = true ∧ s = sb)
    ∧ (∀ (sb dt : Nat) (data : List Nat) (rsA : Bool) (rsB : Nat) (ev : Event)
      (n : Nat) (a : Bool) (s : Nat),
      sb = 0xF0 ∨ sb = 0xF2 ∨ sb = 0xF3 ∨ sb = 0xF6 ∨ sb = 0xF7 →
      dispatch sb dt data rsA rsB = .ok (ev, n, a, s) → a = false ∧ s = rsB)
    ∧ (∀ (sb dt : Nat) (data : List Nat) (rsA : Bool) (rsB : Nat) (ev : Event)
      (n : Nat) (a : Bool) (s : Nat),
      sb = 0xF8 ∨ sb = 0xFA ∨ sb = 0xFB ∨ sb = 0xFC ∨ sb = 0xFE ∨ sb = 0xFF →
      dispatch sb dt data rsA rsB = .ok (ev, n, a, s) → a = rsA ∧ s = rsB)
    ∧ (∀ (dt : Nat) (data : List Nat) (rsA : Bool) (rsB : Nat),
      dispatch 0xF9 dt data rsA rsB = .error (.unknownStatusByte 0xF9))
    ∧ (∀ (dt : Nat) (data : List Nat) (rsA : Bool) (rsB : Nat),
      dispatch 0xFD dt data rsA rsB = .error (.unknownStatusByte 0xFD))
    ∧ (∀ (data : List Nat) (dt n0 b : Nat) (rest : List Nat) (rsB : Nat),
      readVariableLengthInteger data = .ok (dt, n0) →
      data.drop n0 = b :: rest → ¬ b >>> 7 = 1 →
      parseOneEvent data false rsB = .error .dataByteWithoutRunningStatus
      ∧ parseOneEvent data true rsB =
          (match dispatch rsB dt (b :: rest) true rsB with
           | .error e => .error e
           | .ok (ev, k, a, s) => .ok (ev, n0 + k, a, s))) := by
  refine ⟨?_, ?_, ?_, ?_, ?_, ?_⟩
  · intro sb dt data rsA rsB ev n a s h1 h2 hd
    rcases (show sb >>> 4 = 8 ∨ sb >>> 4 = 9 ∨ sb >>> 4 = 10 ∨ sb >>> 4 = 11 ∨
        sb >>> 4 = 12 ∨ sb >>> 4 = 13 ∨ sb >>> 4 = 14 by omega) with
      h | h | h | h | h | h | h <;>
      simp only [dispatch, h] at hd <;> norm_num at hd <;>
      exact setRS_ok_rs _ _ _ _ _ _ _ hd
  · intro sb dt data rsA rsB ev n a s hor hd
    rcases hor with h | h | h | h | h <;> subst h <;>
      simp only [dispatch] at hd <;> norm_num [shiftRight4_eq] at hd <;>
      exact setRS_ok_rs _ _ _ _ _ _ _ hd
  · intro sb dt data rsA rsB ev n a s hor hd
    rcases hor with h | h | h | h | h | h <;> subst h <;>
      simp only [dispatch] at hd <;> norm_num [shiftRight4_eq] at hd <;>
      exact setRS_ok_rs _ _ _ _ _ _ _ hd
  · intro dt data rsA rsB
    rfl
  · intro dt data rsA rsB
    rfl
  · intro data dt n0 b rest rsB h hdrop hb7
    constructor
    · simp only [parseOneEvent, h, hdrop, hb7, if_neg, ite_false, Bool.false_eq_true]
    · simp only [parseOneEvent, h, hdrop, hb7, if_neg, ite_false, ite_true]

/-- Witness for C2: a NoteOn status byte 0x90 sets the running status to
itself, and a stray data byte 0x40 after a delta-time with no active running
status aborts (while with an active status it dispatches that status without
consuming the data byte). -/
theorem c2_running_status_rule_witness :
    ((true : Bool) = true ∧ (0x90 : Nat) = 0x90)
    ∧ (parseOneEvent [0x00, 0x40] false 0x90 = .error .dataByteWithoutRunningStatus
      ∧ parseOneEvent [0x00, 0x40] true 0x90 =
          (match dispatch 0x90 0 ([0x40] : List Nat) true 0x90 with
           | .error e => .error e
           | .ok (ev, k, a, s) => .ok (ev, 1 + k, a, s))) :=
  ⟨c2_running_status_rule.1 0x90 0 [0x40, 0x60] false 0
      (.ChannelEvent 0 .NoteOn 0 0x40 0x60) 2 true 0x90 (by decide) (by decide) (by rfl),
   c2_running_status_rule.2.2.2.2.2 [0x00, 0x40] 0 1 0x40 [] 0x90 rfl rfl (by decide)⟩

/-- C8: given that the length VLQ parses, system-exclusive and meta decoding
fail with their truncation errors exactly when the declared payload length
exceeds the bytes remaining after the VLQ, and with declared length 0 they
succeed with an empty payload. -/
theorem c8_truncation :
    (∀ (sb dt : Nat) (data : List Nat) (L n : Nat),
      readVariableLengthInteger data = .ok (L, n) →
      (parseSystemExclusive sb dt data = .error .truncatedSysex
        ↔ (data.drop n).length < L)
      ∧ (L = 0 → parseSystemExclusive sb dt data = .ok (.SystemExclusiveEvent dt [], n)))
    ∧ (∀ (sb dt mt : Nat) (body : List Nat) (L n : Nat),
      readVariableLengthInteger body = .ok (L, n) →
      (parseMeta sb dt (mt :: body) = .error .truncatedMeta
        ↔ (body.drop n).length < L)
      ∧ (L = 0 → parseMeta sb dt (mt :: body) = .ok (.MetaEvent dt mt [], n + 1))) := by
  constructor
  · intro sb dt data L n h
    constructor
    · by_cases c : (data.drop n).length < L
      · simp [parseSystemExclusive, h, c]
      · simp [parseSystemExclusive, h, c]
    · intro hL
      subst hL
      simp [parseSystemExclusive, h]
  · intro sb dt mt body L n h
    constructor
    · by_cases c : (body.drop n).length < L
      · simp [parseMeta, h, c]
      · simp [parseMeta, h, c]
    · intro hL
      subst hL
      simp [parseMeta, h]

/-- Witness for C8: payload declaring 5 bytes with none remaining truncates;
payload declaring 0 bytes yields the empty-payload event (sysex and meta). -/
theorem c8_truncation_witness :
    ((parseSystemExclusive 0xF0 7 [5] = .error .truncatedSysex
      ↔ (([5] : List Nat).drop 1).length < 5)
    ∧ (5 = 0 → parseSystemExclusive 0xF0 7 [5] = .ok (.SystemExclusiveEvent 7 [], 1)))
    ∧ ((parseMeta 0xFF 7 (3 :: [0]) = .error .truncatedMeta
      ↔ (([0] : List Nat).drop 1).length < 0)
    ∧ (0 = 0 → parseMeta 0xFF 7 (3 :: [0]) = .ok (.MetaEvent 7 3 [], 1 + 1))) :=
  ⟨c8_truncation.1 0xF0 7 [5] 5 1 rfl, c8_truncation.2 0xFF 7 3 [0] 0 1 rfl⟩

/-- C6: the pitch-bend (and song-position-pointer) encoder emits the low 7
bits of the combined 14-bit value as the first data byte and the high 7 bits
as the second, and decoding those two data bytes recombines them as
`(byte2 << 7) | byte1`, reproducing the combined value exactly. -/
theorem c6_pitchbend_roundtrip (v dt dt2 ch sb : Nat) (hv : v ≤ 16383) (hch : ch ≤ 15) :
    (Event.ChannelEvent dt .PitchWheelChange ch v (v >>> 7)).writeTo
      = writeVariableLengthInteger dt ++ [224 + ch, v &&& 0x7F, v >>> 7]
    ∧ parsePitchWheelChange sb dt2 [v &&& 0x7F, v >>> 7]
      = .ok (.ChannelEvent dt2 .PitchWheelChange (sb &&& 0xF) v (v >>> 7), 2)
    ∧ (Event.SystemCommonEvent dt .SongPositionPointer v (v >>> 7)).writeTo
      = writeVariableLengthInteger dt ++ [0xF2, v &&& 0x7F, v >>> 7]
    ∧ parseSongPositionPointer sb dt2 [v &&& 0x7F, v >>> 7]
      = .ok (.SystemCommonEvent dt2 .SongPositionPointer v (v >>> 7), 2) := by
  have hs7 : v >>> 7 = v / 128 := shiftRight7_eq v
  have hd1 : v &&& 127 = v % 128 := and_127_eq_mod v
  have hd2 : (v >>> 7) % 256 = v >>> 7 := by rw [hs7]; omega
  have hsb : (224 : Nat) ^^^ ch % 256 = 224 + ch := by
    have hm : ch % 256 = ch := by omega
    have h16 : (224 : Nat) = 14 * 16 := by norm_num
    rw [hm, h16, mul16_xor_eq_add 14 ch (by omega)]
  have hcomb : ((((v / 128) <<< 7) % 65536) ^^^ v % 128) % 65536 = v := by
    have hs : ((v / 128) <<< 7) % 65536 = v / 128 * 128 := by rw [shiftLeft7_eq]; omega
    rw [hs, mul_128_xor_eq_add _ _ (by omega)]
    omega
  refine ⟨?_, ?_, ?_, ?_⟩
  · simp [Event.writeTo, channelStatusNibble, channelD1, channelD2, channelNumBytes,
      hsb, hd2]
  · rw [hd1, hs7]
    simp [parsePitchWheelChange, parseChannelEvent_cons2, hcomb]
  · simp [Event.writeTo, systemCommonBytes, hd2]
  · rw [hd1, hs7]
    simp [parseSongPositionPointer, parseSystemCommonEvent_cons2, hcomb]

/-- Witness for C6 at the spec's value 300 (channel 0, a fresh status byte
0xE0): encode emits data bytes 0x2C, 0x02 and decoding them reproduces 300. -/
theorem c6_pitchbend_roundtrip_witness :
    (Event.ChannelEvent 0 .PitchWheelChange 0 300 (300 >>> 7)).writeTo
      = writeVariableLengthInteger 0 ++ [224 + 0, 300 &&& 0x7F, 300 >>> 7]
    ∧ parsePitchWheelChange 0xE0 0 [300 &&& 0x7F, 300 >>> 7]
      = .ok (.ChannelEvent 0 .PitchWheelChange (0xE0 &&& 0xF) 300 (300 >>> 7), 2)
    ∧ (Event.SystemCommonEvent 0 .SongPositionPointer 300 (300 >>> 7)).writeTo
      = writeVariableLengthInteger 0 ++ [0xF2, 300 &&& 0x7F, 300 >>> 7]
    ∧ parseSongPositionPointer 0xE0 0 [300 &&& 0x7F, 300 >>> 7]
      = .ok (.SystemCommonEvent 0 .SongPositionPointer 300 (300 >>> 7), 2) :=
  c6_pitchbend_roundtrip 300 0 0 0 0xE0 (by decide) (by decide)

/-- C7 counterexample: a single PitchWheelChange event with 14-bit Value1 300
and 7-bit Value2 0 (all fields within their declared bit widths) does not
survive the encode-then-decode round trip — the decoder materializes the raw
second data byte (300 >>> 7 = 2) in Value2, so the decoded event differs from
the original. -/
theorem c7_counterexample :
    Events (chunkData [.ChannelEvent 0 .PitchWheelChange 0 300 0])
      = .ok [.ChannelEvent 0 .PitchWheelChange 0 300 2]
    ∧ ([Event.ChannelEvent 0 .PitchWheelChange 0 300 2]
        ≠ [Event.ChannelEvent 0 .PitchWheelChange 0 300 0]) :=
  ⟨rfl, by decide⟩

/-- C7 amended: for every non-empty sequence of well-formed events — recognized
kinds, delta-times at most 0x0FFFFFFF, channels at most 15, 7-bit data values,
14-bit combined values whose events carry the raw second data byte in Value2,
zeroes in value slots the wire does not carry, recognized meta types and
VLQ-range payload lengths — encoding with the track encoder and decoding the
resulting buffer with the track decoder yields the original sequence. -/
theorem c7_encode_decode_roundtrip (es : List Event) (hne : es ≠ [])
    (hwf : ∀ e ∈ es, isWF e = true) :
    Events (chunkData es) = .ok es :=
  events_chunkData es hne hwf

/-- Witness for C7: a sequence exercising every event family round-trips. -/
theorem c7_encode_decode_roundtrip_witness :
    Events (chunkData
      [.ChannelEvent 5 .NoteOn 2 64 96,
       .SystemExclusiveEvent 0 [1, 2, 3],
       .MetaEvent 1 0x51 [7, 8],
       .SystemRealTimeEvent 0 .Start,
       .SystemCommonEvent 0 .SongPositionPointer 300 2,
       .SystemCommonEvent 0 .TuneRequest 0 0,
       .ChannelEvent 0 .ProgramChange 3 10 0])
      = .ok
      [.ChannelEvent 5 .NoteOn 2 64 96,
       .SystemExclusiveEvent 0 [1, 2, 3],
       .MetaEvent 1 0x51 [7, 8],
       .SystemRealTimeEvent 0 .Start,
       .SystemCommonEvent 0 .SongPositionPointer 300 2,
       .SystemCommonEvent 0 .TuneRequest 0 0,
       .ChannelEvent 0 .ProgramChange 3 10 0] :=
  c7_encode_decode_roundtrip _ (by decide) (by decide)

/-- C1 counterexample: this payload uses running-status compression (second
NoteOn without a status byte), decodes successfully, but re-serializing the
decoded events emits an explicit 0x90 status byte for the second event, so the
concatenation of the events' serialized forms is not the original payload. -/
theorem c1_counterexample :
    Events [0x00, 0x90, 0x40, 0x60, 0x00, 0x41, 0x61]
      = .ok [.ChannelEvent 0 .NoteOn 0 0x40 0x60, .ChannelEvent 0 .NoteOn 0 0x41 0x61]
    ∧ chunkData [.ChannelEvent 0 .NoteOn 0 0x40 0x60, .ChannelEvent 0 .NoteOn 0 0x41 0x61]
      ≠ [0x00, 0x90, 0x40, 0x60, 0x00, 0x41, 0x61] :=
  ⟨rfl, by decide⟩

/-- C1 amended: for every payload in the track encoder's canonical form — the
encoding of some non-empty well-formed event sequence, hence with explicit
status bytes, minimal VLQs, the 0xF0 sysex form and recognized meta types —
decoding succeeds and concatenating the decoded events' serialized forms
reproduces the payload byte for byte.  (Payloads using running-status
compression or other non-canonical spellings decode but re-encode to a
different, canonical byte string.) -/
theorem c1_canonical_payload_roundtrip (p : List Nat) (es : List Event)
    (hp : p = chunkData es) (hne : es ≠ []) (hwf : ∀ e ∈ es, isWF e = true) :
    ∃ es2, Events p = .ok es2 ∧ chunkData es2 = p := by
  subst hp
  exact ⟨es, events_chunkData es hne hwf, rfl⟩

/-- Witness for C1: a canonical payload containing a NoteOff, a meta event and
a sysex event round-trips byte for byte. -/
theorem c1_canonical_payload_roundtrip_witness :
    ∃ es2,
      Events (chunkData
        [.ChannelEvent 0 .NoteOff 1 60 40,
         .MetaEvent 0 0x2F [],
         .SystemExclusiveEvent 2 [0x7D]])
        = .ok es2
      ∧ chunkData es2 = chunkData
        [.ChannelEvent 0 .NoteOff 1 60 40,
         .MetaEvent 0 0x2F [],
         .SystemExclusiveEvent 2 [0x7D]] :=
  c1_canonical_payload_roundtrip _
    [.ChannelEvent 0 .NoteOff 1 60 40, .MetaEvent 0 0x2F [],
     .SystemExclusiveEvent 2 [0x7D]]
    rfl (by decide) (by decide)

end Gomidi
